import Mathlib

/-!
Shallow embedding of the CMS account-ledger and resource-interaction
subsystems (Go sources: internal/repository/order.go, the resource
repository file, internal/service/account_ser.go,
internal/service/resource_ser.go).

Currency amounts (`shopspring/decimal` over a `DECIMAL(10,2)` column)
are modelled as integers in minor units (cents): the operations used by
the code are addition, subtraction and order comparison, all exact on
this representation at the column's scale of two decimal places.

Database rows are modelled as Lean structures, a table as a list of
rows.  A SQL `UPDATE ... WHERE k = ?` is a map over the list touching
the rows whose key matches; its rows-affected count is the number of
matching rows.  Infrastructure failures (connection loss, constraint
surprises) are outside the model; the schema's DDL is not in the
sources, so column defaults follow the spec (a fresh account starts at
zero).
-/

namespace CMS

/-- Int in minor units (cents); `decimal.Decimal` at scale 2. -/
def moneyScale : Nat := 2

/-- Row of `user_account` (model.UserAccount): balance plus the two
lifetime accumulators. The surrogate `id` column plays no role in any
operation modelled here and is omitted. -/
structure UserAccount where
  userUUID : String
  balance : Int
  totalRecharge : Int
  totalConsume : Int
deriving Repr, DecidableEq

/-- Row of `users` (model.User), restricted to the fields the modelled
operations read: primary key, UUID and username. -/
structure User where
  id : Nat
  uuid : String
  username : String
deriving Repr, DecidableEq

/-- Row of `resources` (model.Resource). `publishTime` is an abstract
instant (`time.Time` modelled as a natural number). -/
structure Resource where
  id : Nat
  userID : Nat
  title : String
  textContent : String
  codeContent : String
  author : String
  publishTime : Nat
  likeCount : Nat
  viewCount : Nat
  commentCount : Nat
deriving Repr, DecidableEq

/-- Errors surfaced by the repository layer (order.go and the resource
repository), one constructor per distinct error condition in the Go
code. -/
inductive RepoErr where
  | invalidAmount
  | notFound
  | insufficientFunds
  | conflict
deriving Repr, DecidableEq

namespace repository

/-- Rows matched by `WHERE user_uuid = ?`: the rows-affected count of
the recharge/deduct UPDATE statements. -/
def rowsAffected (accs : List UserAccount) (uuid : String) : Nat :=
  accs.countP (fun a => a.userUUID == uuid)

/-- order.go CreateAccount: `INSERT INTO user_account (user_uuid)`;
a duplicate `user_uuid` raises the 1062 unique-index error, otherwise
the fresh row takes the column defaults (all amounts zero). -/
def CreateAccount (accs : List UserAccount) (uuid : String) :
    Except RepoErr (List UserAccount) :=
  if (accs.find? (fun a => a.userUUID == uuid)).isSome then
    .error .conflict
  else
    .ok (accs ++ [⟨uuid, 0, 0, 0⟩])

/-- order.go RechargeBalance: reject non-positive amounts, then
`UPDATE user_account SET balance = balance + ?, total_recharge =
total_recharge + ? WHERE user_uuid = ?`; zero rows affected is the
account-not-found error. -/
def RechargeBalance (accs : List UserAccount) (uuid : String) (amount : Int) :
    Except RepoErr (List UserAccount) :=
  if amount ≤ 0 then
    .error .invalidAmount
  else
    let updated := accs.map (fun a =>
      if a.userUUID == uuid then
        { a with balance := a.balance + amount,
                 totalRecharge := a.totalRecharge + amount }
      else a)
    if rowsAffected accs uuid = 0 then
      .error .notFound
    else
      .ok updated

/-- order.go DeductBalance: reject non-positive amounts; `SELECT
balance ... WHERE user_uuid = ?` (no row is the account-not-found
error); fail when `balance < amount`; otherwise `UPDATE user_account
SET balance = balance - ?, total_consume = total_consume + ? WHERE
user_uuid = ?`. -/
def DeductBalance (accs : List UserAccount) (uuid : String) (amount : Int) :
    Except RepoErr (List UserAccount) :=
  if amount ≤ 0 then
    .error .invalidAmount
  else
    match accs.find? (fun a => a.userUUID == uuid) with
    | none => .error .notFound
    | some acc =>
      if acc.balance < amount then
        .error .insufficientFunds
      else
        .ok (accs.map (fun a =>
          if a.userUUID == uuid then
            { a with balance := a.balance - amount,
                     totalConsume := a.totalConsume + amount }
          else a))

/-- order.go GetAccountByUserUUID: single-row SELECT by `user_uuid`;
absence returns nil without an error. -/
def GetAccountByUserUUID (accs : List UserAccount) (uuid : String) :
    Option UserAccount :=
  accs.find? (fun a => a.userUUID == uuid)

end repository

/-- A recharge or deduct request against one account, used to state the
trace properties over the repository operations. -/
inductive Op where
  | recharge (amount : Int)
  | deduct (amount : Int)
deriving Repr, DecidableEq

/-- One repository call of a trace: a failed call leaves the table
untouched (every error path of order.go returns before the UPDATE, or
after an UPDATE that matched no row). -/
def applyOp (accs : List UserAccount) (uuid : String) : Op → List UserAccount
  | .recharge a =>
    match repository.RechargeBalance accs uuid a with
    | .ok accs' => accs'
    | .error _ => accs
  | .deduct a =>
    match repository.DeductBalance accs uuid a with
    | .ok accs' => accs'
    | .error _ => accs

/-- A whole trace of recharge/deduct calls against one account. -/
def runOps (accs : List UserAccount) (uuid : String) (ops : List Op) :
    List UserAccount :=
  ops.foldl (fun s op => applyOp s uuid op) accs

/-- The row a fresh `CreateAccount` persists for `uuid`. -/
def mkAccount (uuid : String) : UserAccount := ⟨uuid, 0, 0, 0⟩

/-- The single account row after running a trace from a fresh account. -/
def run1 (uuid : String) (ops : List Op) : UserAccount :=
  (runOps [mkAccount uuid] uuid ops).headD (mkAccount uuid)

/-- Effect of one trace step on the row it targets (derived form used by
the proofs; `applyOp_singleton` ties it to the repository functions). -/
def rowStep (r : UserAccount) : Op → UserAccount
  | .recharge a =>
    if a ≤ 0 then r
    else { r with balance := r.balance + a, totalRecharge := r.totalRecharge + a }
  | .deduct a =>
    if a ≤ 0 then r
    else if r.balance < a then r
    else { r with balance := r.balance - a, totalConsume := r.totalConsume + a }

theorem rowStep_userUUID (r : UserAccount) (op : Op) :
    (rowStep r op).userUUID = r.userUUID := by
  cases op <;> simp only [rowStep] <;> split_ifs <;> rfl

theorem applyOp_singleton (r : UserAccount) (op : Op) :
    applyOp [r] r.userUUID op = [rowStep r op] := by
  cases op with
  | recharge a =>
    by_cases ha : a ≤ 0
    · simp [applyOp, repository.RechargeBalance, rowStep, ha]
    · simp [applyOp, repository.RechargeBalance, rowStep,
        repository.rowsAffected, ha, List.countP_cons]
  | deduct a =>
    by_cases ha : a ≤ 0
    · simp [applyOp, repository.DeductBalance, rowStep, ha]
    · by_cases hb : r.balance < a
      · simp [applyOp, repository.DeductBalance, rowStep, ha, hb, List.find?]
      · simp [applyOp, repository.DeductBalance, rowStep, ha, hb, List.find?]

theorem runOps_singleton (r : UserAccount) (ops : List Op) :
    runOps [r] r.userUUID ops = [ops.foldl rowStep r] := by
  induction ops generalizing r with
  | nil => rfl
  | cons op ops ih =>
    simp only [runOps, List.foldl_cons]
    rw [applyOp_singleton]
    have h := ih (rowStep r op)
    rw [rowStep_userUUID] at h
    exact h

/-- The ledger invariant of a reachable account row. -/
def ledgerInv (r : UserAccount) : Prop :=
  r.balance = r.totalRecharge - r.totalConsume ∧ 0 ≤ r.balance

theorem rowStep_inv (r : UserAccount) (op : Op) (h : ledgerInv r) :
    ledgerInv (rowStep r op) := by
  obtain ⟨heq, hpos⟩ := h
  cases op with
  | recharge a =>
    simp only [rowStep, ledgerInv]
    split_ifs with ha
    · exact ⟨heq, hpos⟩
    · constructor <;> simp <;> omega
  | deduct a =>
    simp only [rowStep, ledgerInv]
    split_ifs with ha hb
    · exact ⟨heq, hpos⟩
    · exact ⟨heq, hpos⟩
    · constructor <;> simp <;> omega

theorem foldl_rowStep_inv (ops : List Op) (r : UserAccount) (h : ledgerInv r) :
    ledgerInv (ops.foldl rowStep r) := by
  induction ops generalizing r with
  | nil => exact h
  | cons op ops ih => exact ih _ (rowStep_inv r op h)

theorem rowStep_totals_mono (r : UserAccount) (op : Op) :
    r.totalRecharge ≤ (rowStep r op).totalRecharge ∧
      r.totalConsume ≤ (rowStep r op).totalConsume := by
  cases op with
  | recharge a =>
    simp only [rowStep]
    split_ifs with ha
    · exact ⟨le_refl _, le_refl _⟩
    · constructor <;> simp <;> omega
  | deduct a =>
    simp only [rowStep]
    split_ifs with ha hb
    · exact ⟨le_refl _, le_refl _⟩
    · exact ⟨le_refl _, le_refl _⟩
    · constructor <;> simp <;> omega

theorem foldl_rowStep_totals_mono (ops : List Op) (r : UserAccount) :
    r.totalRecharge ≤ (ops.foldl rowStep r).totalRecharge ∧
      r.totalConsume ≤ (ops.foldl rowStep r).totalConsume := by
  induction ops generalizing r with
  | nil => exact ⟨le_refl _, le_refl _⟩
  | cons op ops ih =>
    obtain ⟨h1, h2⟩ := rowStep_totals_mono r op
    obtain ⟨h3, h4⟩ := ih (rowStep r op)
    exact ⟨le_trans h1 h3, le_trans h2 h4⟩

theorem run1_eq_foldl (uuid : String) (ops : List Op) :
    run1 uuid ops = ops.foldl rowStep (mkAccount uuid) := by
  unfold run1
  have h := runOps_singleton (mkAccount uuid) ops
  rw [show (mkAccount uuid).userUUID = uuid from rfl] at h
  rw [h]
  rfl

/-- C1: starting from a freshly created account (all three amounts
zero), after any trace of recharge/deduct repository calls the balance
equals total recharge minus total consume, and along any extension of
the trace the two accumulators never decrease. -/
theorem recharge_deduct_ledger_equation (uuid : String) (ops more : List Op) :
    (run1 uuid ops).balance
        = (run1 uuid ops).totalRecharge - (run1 uuid ops).totalConsume
      ∧ (run1 uuid ops).totalRecharge ≤ (run1 uuid (ops ++ more)).totalRecharge
      ∧ (run1 uuid ops).totalConsume ≤ (run1 uuid (ops ++ more)).totalConsume := by
  have hinv := foldl_rowStep_inv ops (mkAccount uuid) ⟨rfl, le_refl 0⟩
  have hmono := foldl_rowStep_totals_mono more (ops.foldl rowStep (mkAccount uuid))
  rw [run1_eq_foldl, run1_eq_foldl, List.foldl_append]
  exact ⟨hinv.1, hmono.1, hmono.2⟩

/-- C2: a deduction of more than the current balance fails with the
insufficient-funds error and leaves the row untouched, and the balance
reached from a fresh account by any trace is never negative. -/
theorem deduct_never_overdraws (r : UserAccount) (amount : Int)
    (uuid : String) (ops : List Op)
    (h0 : 0 ≤ r.balance) (h : r.balance < amount) :
    repository.DeductBalance [r] r.userUUID amount = .error .insufficientFunds
      ∧ applyOp [r] r.userUUID (.deduct amount) = [r]
      ∧ 0 ≤ (run1 uuid ops).balance := by
  have hpos : ¬ amount ≤ 0 := by omega
  refine ⟨?_, ?_, ?_⟩
  · simp [repository.DeductBalance, hpos, h]
  · simp [applyOp, repository.DeductBalance, hpos, h]
  · have hinv := foldl_rowStep_inv ops (mkAccount uuid) ⟨rfl, le_refl 0⟩
    rw [run1_eq_foldl]
    exact hinv.2

/-- Witness for C2 at the spec scenario: balance 70.00, recharge total
100.00, consume total 30.00; deducting 100.00 fails and mutates
nothing, and the trace reaching that state has a non-negative balance. -/
theorem deduct_never_overdraws_witness :
    repository.DeductBalance [⟨"u1", 7000, 10000, 3000⟩] "u1" 10000
        = .error .insufficientFunds
      ∧ applyOp [⟨"u1", 7000, 10000, 3000⟩] "u1" (.deduct 10000)
        = [⟨"u1", 7000, 10000, 3000⟩]
      ∧ 0 ≤ (run1 "u1" [Op.recharge 10000, Op.deduct 3000]).balance :=
  deduct_never_overdraws ⟨"u1", 7000, 10000, 3000⟩ 10000 "u1"
    [Op.recharge 10000, Op.deduct 3000] (by decide) (by decide)

/-- C4: against a table holding no account row for the identity, both
repository operations (with a positive amount, so that the amount guard
does not fire first) report the account-not-found error, and as trace
steps they leave the table unchanged. -/
theorem nonexistent_account_not_found (accs : List UserAccount)
    (uuid : String) (amount : Int)
    (habs : repository.GetAccountByUserUUID accs uuid = none)
    (hpos : 0 < amount) :
    repository.RechargeBalance accs uuid amount = .error .notFound
      ∧ repository.DeductBalance accs uuid amount = .error .notFound
      ∧ applyOp accs uuid (.recharge amount) = accs
      ∧ applyOp accs uuid (.deduct amount) = accs := by
  have hneg : ¬ amount ≤ 0 := by omega
  have hfind : accs.find? (fun a => a.userUUID == uuid) = none := habs
  have hcount : repository.rowsAffected accs uuid = 0 := by
    unfold repository.rowsAffected
    rw [List.countP_eq_zero]
    intro a ha
    exact List.find?_eq_none.mp hfind a ha
  refine ⟨?_, ?_, ?_, ?_⟩
  · simp [repository.RechargeBalance, hneg, hcount]
  · simp [repository.DeductBalance, hneg, hfind]
  · simp [applyOp, repository.RechargeBalance, hneg, hcount]
  · simp [applyOp, repository.DeductBalance, hneg, hfind]

/-- Witness for C4: the empty table has no row for "u1"; recharging or
deducting 1 cent reports not-found and changes nothing. -/
theorem nonexistent_account_not_found_witness :
    repository.RechargeBalance [] "u1" 1 = .error .notFound
      ∧ repository.DeductBalance [] "u1" 1 = .error .notFound
      ∧ applyOp [] "u1" (.recharge 1) = []
      ∧ applyOp [] "u1" (.deduct 1) = [] :=
  nonexistent_account_not_found [] "u1" 1 rfl (by decide)

/-- Errors surfaced by the service layer (account_ser.go and
resource_ser.go), one constructor per distinct error produced there;
`storage` wraps an error bubbled up from the repository. -/
inductive SvcErr where
  | invalidIdentity
  | invalidAmount
  | invalidUserId
  | invalidTitle
  | invalidResourceId
  | emptyContent
  | invalidPage
  | invalidSize
  | userNotFound
  | emptyUsername
  | accountMissing
  | storage (e : RepoErr)
deriving Repr, DecidableEq

/-- The validation errors: produced by the service's own argument
checks, before any repository call. -/
def SvcErr.isValidation : SvcErr → Bool
  | .invalidIdentity | .invalidAmount | .invalidUserId | .invalidTitle
  | .invalidResourceId | .emptyContent | .invalidPage | .invalidSize => true
  | _ => false

/-- One call from the service layer into a repository, recorded so that
"no storage call is made" is a statement about the trace. -/
inductive StoreCall where
  | getUserByUuid (uuid : String)
  | getUserById (id : Nat)
  | rechargeBalance (uuid : String) (amount : Int)
  | deductBalance (uuid : String) (amount : Int)
  | getAccountByUserUUID (uuid : String)
  | createResource (res : Resource)
  | countResources (keyword : String)
  | getResourceList (offset limit : Int) (keyword : String)
  | getResourceByID (id : Nat)
  | incrViewCount (id : Nat)
  | incrLikeCount (id : Nat)
  | incrCommentCount (id : Nat)
deriving Repr, DecidableEq

/-- The whole persistent state the modelled services touch. -/
structure DB where
  users : List User
  accounts : List UserAccount
  resources : List Resource
  nextResourceId : Nat
deriving Repr, DecidableEq

/-- Outcome of one service call: the returned value or error, the
state afterwards, and the repository calls issued along the way. -/
structure SvcResult (α : Type) where
  res : Except SvcErr α
  db : DB
  calls : List StoreCall
deriving Repr

/-- True when the call returned one of the service's own validation
errors. -/
def resIsValidation {α : Type} : Except SvcErr α → Bool
  | .error e => e.isValidation
  | .ok _ => false

/-- dto.RechargeRequest. -/
structure RechargeRequest where
  userUUID : String
  amount : Int
deriving Repr, DecidableEq

/-- dto.DeductRequest. -/
structure DeductRequest where
  userUUID : String
  amount : Int
deriving Repr, DecidableEq

/-- dto.AccountResponse. -/
structure AccountResponse where
  userUUID : String
  balance : Int
  totalRecharge : Int
  totalConsume : Int
deriving Repr, DecidableEq

namespace repository

/-- userRepoImpl.GetUserByUuid (part_001): single-row SELECT over
`users` by `uuid`; sql.ErrNoRows becomes a user-not-found error (the
function never answers a nil user without an error), any other scan
failure is infrastructure and outside the model; on success the scanned
user record is returned. -/
def GetUserByUuid (users : List User) (uuid : String) : Except RepoErr User :=
  match users.find? (fun u => u.uuid == uuid) with
  | none => .error .notFound
  | some u => .ok u

/-- userRepoImpl.GetUserById (part_001): single-row SELECT over `users`
by primary key with `LIMIT 1`; sql.ErrNoRows becomes a
user-id-not-found error (the function never answers a nil user without
an error); on success the scanned user record is returned. -/
def GetUserById (users : List User) (id : Nat) : Except RepoErr User :=
  match users.find? (fun u => u.id == id) with
  | none => .error .notFound
  | some u => .ok u

end repository

namespace service

/-- account_ser.go Recharge: reject an empty identity, then a
non-positive amount, both before any repository call; then resolve the
user, run the repository recharge, and re-read the account to build the
response snapshot. -/
def Recharge (db : DB) (req : RechargeRequest) : SvcResult AccountResponse :=
  if req.userUUID == "" then
    ⟨.error .invalidIdentity, db, []⟩
  else if req.amount ≤ 0 then
    ⟨.error .invalidAmount, db, []⟩
  else
    match repository.GetUserByUuid db.users req.userUUID with
    | .error _ => ⟨.error .userNotFound, db, [.getUserByUuid req.userUUID]⟩
    | .ok _ =>
      match repository.RechargeBalance db.accounts req.userUUID req.amount with
      | .error e =>
        ⟨.error (.storage e), db,
          [.getUserByUuid req.userUUID,
           .rechargeBalance req.userUUID req.amount]⟩
      | .ok accs =>
        let db' : DB := { db with accounts := accs }
        match repository.GetAccountByUserUUID accs req.userUUID with
        | none =>
          ⟨.error .accountMissing, db',
            [.getUserByUuid req.userUUID,
             .rechargeBalance req.userUUID req.amount,
             .getAccountByUserUUID req.userUUID]⟩
        | some acc =>
          ⟨.ok ⟨acc.userUUID, acc.balance, acc.totalRecharge, acc.totalConsume⟩,
            db',
            [.getUserByUuid req.userUUID,
             .rechargeBalance req.userUUID req.amount,
             .getAccountByUserUUID req.userUUID]⟩

/-- account_ser.go Deduct: same shape as Recharge, with the repository
deduction in the middle. -/
def Deduct (db : DB) (req : DeductRequest) : SvcResult AccountResponse :=
  if req.userUUID == "" then
    ⟨.error .invalidIdentity, db, []⟩
  else if req.amount ≤ 0 then
    ⟨.error .invalidAmount, db, []⟩
  else
    match repository.GetUserByUuid db.users req.userUUID with
    | .error _ => ⟨.error .userNotFound, db, [.getUserByUuid req.userUUID]⟩
    | .ok _ =>
      match repository.DeductBalance db.accounts req.userUUID req.amount with
      | .error e =>
        ⟨.error (.storage e), db,
          [.getUserByUuid req.userUUID,
           .deductBalance req.userUUID req.amount]⟩
      | .ok accs =>
        let db' : DB := { db with accounts := accs }
        match repository.GetAccountByUserUUID accs req.userUUID with
        | none =>
          ⟨.error .accountMissing, db',
            [.getUserByUuid req.userUUID,
             .deductBalance req.userUUID req.amount,
             .getAccountByUserUUID req.userUUID]⟩
        | some acc =>
          ⟨.ok ⟨acc.userUUID, acc.balance, acc.totalRecharge, acc.totalConsume⟩,
            db',
            [.getUserByUuid req.userUUID,
             .deductBalance req.userUUID req.amount,
             .getAccountByUserUUID req.userUUID]⟩

end service

/-- `like_count = like_count + 1` on one row. -/
def bumpLike (r : Resource) : Resource :=
  { r with likeCount := r.likeCount + 1 }

/-- `view_count = view_count + 1` on one row. -/
def bumpView (r : Resource) : Resource :=
  { r with viewCount := r.viewCount + 1 }

/-- `comment_count = comment_count + 1` on one row. -/
def bumpComment (r : Resource) : Resource :=
  { r with commentCount := r.commentCount + 1 }

namespace repository

/-- `UPDATE resources SET ... WHERE id = ?`: apply `f` to the rows
whose primary key matches. -/
def updateWhereId (rows : List Resource) (id : Nat) (f : Resource → Resource) :
    List Resource :=
  rows.map (fun r => if r.id == id then f r else r)

/-- IncrViewCount: `UPDATE resources SET view_count = view_count + 1
WHERE id = ?`; the rows-affected count is never inspected, so a missing
id is not an error. -/
def IncrViewCount (rows : List Resource) (id : Nat) :
    Except RepoErr (List Resource) :=
  .ok (updateWhereId rows id bumpView)

/-- IncrLikeCount: same single-statement update on `like_count`. -/
def IncrLikeCount (rows : List Resource) (id : Nat) :
    Except RepoErr (List Resource) :=
  .ok (updateWhereId rows id bumpLike)

/-- IncrCommentCount: same single-statement update on `comment_count`. -/
def IncrCommentCount (rows : List Resource) (id : Nat) :
    Except RepoErr (List Resource) :=
  .ok (updateWhereId rows id
    bumpComment)

/-- `LIKE CONCAT(chr37, kw, chr37)`: the keyword occurs somewhere in the
column value. -/
def likeContains (s kw : String) : Bool :=
  decide (kw.data <:+: s.data)

/-- The WHERE clause shared by GetResourceList and CountResources: an
empty keyword matches everything, otherwise the keyword must occur in
the title, the text content or the code content. -/
def matchesKeyword (kw : String) (r : Resource) : Bool :=
  likeContains r.title kw || likeContains r.textContent kw
    || likeContains r.codeContent kw

/-- The rows a keyword filter keeps (all of them for the empty
keyword, mirroring the conditionally appended WHERE clause). -/
def filterByKeyword (rows : List Resource) (kw : String) : List Resource :=
  if kw == "" then rows else rows.filter (matchesKeyword kw)

/-- CountResources: `SELECT COUNT(1) FROM resources` with the same
filter. -/
def CountResources (rows : List Resource) (kw : String) : Nat :=
  (filterByKeyword rows kw).length

/-- GetResourceList: filtered rows ordered by publish time descending,
then `LIMIT offset, limit`. -/
def GetResourceList (rows : List Resource) (offset limit : Int)
    (kw : String) : List Resource :=
  ((((filterByKeyword rows kw).mergeSort
      (fun a b => decide (b.publishTime ≤ a.publishTime))).drop
    offset.toNat).take limit.toNat)

/-- GetResourceByID: single-row SELECT with `LIMIT 1`; a missing row
returns nil without an error. -/
def GetResourceByID (rows : List Resource) (id : Nat) : Option Resource :=
  rows.find? (fun r => r.id == id)

/-- CreateResource (repository): INSERT of every field; the surrogate
key comes from the auto-increment counter. Constraint failures (1062,
1048, 1452) depend on the absent DDL and are outside the model. -/
def CreateResource (db : DB) (res : Resource) : DB :=
  { db with
      resources := db.resources ++ [{ res with id := db.nextResourceId }],
      nextResourceId := db.nextResourceId + 1 }

end repository

/-- How one row relates to its updated image under a counter update
scoped to `id`: matching rows are transformed, others untouched. -/
def incrRel (id : Nat) (f : Resource → Resource) (r r' : Resource) : Prop :=
  (r.id = id → r' = f r) ∧ (r.id ≠ id → r' = r)

theorem forall₂_updateWhereId (rows : List Resource) (id : Nat)
    (f : Resource → Resource) :
    List.Forall₂ (incrRel id f) rows (repository.updateWhereId rows id f) := by
  induction rows with
  | nil => exact .nil
  | cons r rs ih =>
    simp only [repository.updateWhereId, List.map_cons] at *
    refine List.Forall₂.cons ⟨?_, ?_⟩ ih
    · intro h
      simp [h]
    · intro h
      simp [beq_iff_eq, h]

/-- C5 counterexample: on a store holding no resource at all (so id 1
does not exist), each of the three increments reports success, not the
not-found outcome the claim requires. -/
theorem incr_counters_missing_id_counterexample :
    repository.IncrViewCount [] 1 = .ok []
      ∧ repository.IncrLikeCount [] 1 = .ok []
      ∧ repository.IncrCommentCount [] 1 = .ok []
      ∧ repository.IncrViewCount [] 1 ≠ .error .notFound :=
  ⟨rfl, rfl, rfl, fun h => nomatch h⟩

/-- C5 amended: the three store increments never report an error — a
missing id silently succeeds (the rows-affected count is not checked) —
and each call maps every row with the given id to the same row with the
corresponding counter one higher, leaving every other row unchanged. -/
theorem incr_counters_ok_and_pointwise (rows : List Resource) (id : Nat) :
    repository.IncrViewCount rows id
        = .ok (repository.updateWhereId rows id
            bumpView)
      ∧ repository.IncrLikeCount rows id
        = .ok (repository.updateWhereId rows id
            bumpLike)
      ∧ repository.IncrCommentCount rows id
        = .ok (repository.updateWhereId rows id
            bumpComment)
      ∧ List.Forall₂ (incrRel id bumpView)
          rows (repository.updateWhereId rows id
            bumpView)
      ∧ List.Forall₂ (incrRel id bumpLike)
          rows (repository.updateWhereId rows id
            bumpLike)
      ∧ List.Forall₂ (incrRel id bumpComment)
          rows (repository.updateWhereId rows id
            bumpComment) :=
  ⟨rfl, rfl, rfl, forall₂_updateWhereId .., forall₂_updateWhereId ..,
    forall₂_updateWhereId ..⟩

/-- Witness for C5 (amended): the increments at id 1 on a one-row store
whose row has id 1, instantiating the pointwise description. -/
theorem incr_counters_ok_and_pointwise_witness :
    repository.IncrViewCount [⟨1, 1, "t", "", "", "a", 0, 0, 5, 0⟩] 1
        = .ok (repository.updateWhereId [⟨1, 1, "t", "", "", "a", 0, 0, 5, 0⟩] 1
            bumpView)
      ∧ repository.IncrLikeCount [⟨1, 1, "t", "", "", "a", 0, 0, 5, 0⟩] 1
        = .ok (repository.updateWhereId [⟨1, 1, "t", "", "", "a", 0, 0, 5, 0⟩] 1
            bumpLike)
      ∧ repository.IncrCommentCount [⟨1, 1, "t", "", "", "a", 0, 0, 5, 0⟩] 1
        = .ok (repository.updateWhereId [⟨1, 1, "t", "", "", "a", 0, 0, 5, 0⟩] 1
            bumpComment)
      ∧ List.Forall₂ (incrRel 1 bumpView)
          [⟨1, 1, "t", "", "", "a", 0, 0, 5, 0⟩]
          (repository.updateWhereId [⟨1, 1, "t", "", "", "a", 0, 0, 5, 0⟩] 1
            bumpView)
      ∧ List.Forall₂ (incrRel 1 bumpLike)
          [⟨1, 1, "t", "", "", "a", 0, 0, 5, 0⟩]
          (repository.updateWhereId [⟨1, 1, "t", "", "", "a", 0, 0, 5, 0⟩] 1
            bumpLike)
      ∧ List.Forall₂ (incrRel 1 bumpComment)
          [⟨1, 1, "t", "", "", "a", 0, 0, 5, 0⟩]
          (repository.updateWhereId [⟨1, 1, "t", "", "", "a", 0, 0, 5, 0⟩] 1
            bumpComment) :=
  incr_counters_ok_and_pointwise [⟨1, 1, "t", "", "", "a", 0, 0, 5, 0⟩] 1

/-- dto.ResourceItem: the caller-facing projection of a resource, with
the publish time rendered as text. -/
structure ResourceItem where
  id : Nat
  title : String
  textContent : String
  codeContent : String
  author : String
  publishTime : String
  userID : Nat
  likeCount : Nat
  viewCount : Nat
  commentCount : Nat
deriving Repr, DecidableEq

/-- Rendering of `time.Time` (`Format` with a fixed layout), modelled as
the decimal rendering of the abstract instant. -/
def formatTime (t : Nat) : String := toString t

/-- strings.TrimSpace: drop the leading and the trailing run of white
space. -/
def trimSpace (s : String) : String :=
  ⟨(((s.data.dropWhile Char.isWhitespace).reverse).dropWhile
      Char.isWhitespace).reverse⟩

namespace service

/-- resource_ser.go convertModelToDTO: field-for-field projection into
the DTO, formatting the publish time. -/
def convertModelToDTO (res : Resource) : ResourceItem :=
  { id := res.id
    title := res.title
    textContent := res.textContent
    codeContent := res.codeContent
    author := res.author
    publishTime := formatTime res.publishTime
    userID := res.userID
    likeCount := res.likeCount
    viewCount := res.viewCount
    commentCount := res.commentCount }

/-- resource_ser.go CreateResource: validate the user id, trim and
validate the title (non-empty, at most 100 bytes), resolve the user and
require a non-blank username, then insert the resource with the three
counters zero, the trimmed title and text, and the username as author.
A user-lookup failure is an error before any mutation (the source also
guards against a nil user with no error, a case part_001's
GetUserById never produces). -/
def CreateResource (db : DB) (now : Nat) (userID : Nat)
    (title text code : String) : SvcResult Unit :=
  if userID == 0 then
    ⟨.error .invalidUserId, db, []⟩
  else
    let title := trimSpace title
    if title == "" then
      ⟨.error .invalidTitle, db, []⟩
    else if 100 < title.utf8ByteSize then
      ⟨.error .invalidTitle, db, []⟩
    else
      match repository.GetUserById db.users userID with
      | .error _ => ⟨.error .userNotFound, db, [.getUserById userID]⟩
      | .ok user =>
        if trimSpace user.username == "" then
          ⟨.error .emptyUsername, db, [.getUserById userID]⟩
        else
          let res : Resource :=
            ⟨0, userID, title, trimSpace text, code, user.username, now, 0, 0, 0⟩
          ⟨.ok (), repository.CreateResource db res,
            [.getUserById userID, .createResource res]⟩

/-- resource_ser.go GetResourceList: validate the page and the size,
compute the offset, count under the filter, short-circuit to an empty
page when the count is zero, otherwise fetch the page and project each
row to the DTO. -/
def GetResourceList (db : DB) (page size : Int) (keyword : String) :
    SvcResult (List ResourceItem × Nat) :=
  if page < 1 then
    ⟨.error .invalidPage, db, []⟩
  else if size < 1 ∨ 50 < size then
    ⟨.error .invalidSize, db, []⟩
  else
    let offset := (page - 1) * size
    let total := repository.CountResources db.resources keyword
    if total = 0 then
      ⟨.ok ([], 0), db, [.countResources keyword]⟩
    else
      let models := repository.GetResourceList db.resources offset size keyword
      ⟨.ok (models.map convertModelToDTO, total), db,
        [.countResources keyword, .getResourceList offset size keyword]⟩

/-- resource_ser.go GetResourceByID: reject id 0 (`id <= 0` on a
uint64), otherwise return the repository's answer as-is — absence is a
nil row without an error. -/
def GetResourceByID (db : DB) (id : Nat) : SvcResult (Option Resource) :=
  if id == 0 then
    ⟨.error .invalidResourceId, db, []⟩
  else
    ⟨.ok (repository.GetResourceByID db.resources id), db,
      [.getResourceByID id]⟩

/-- resource_ser.go IncrViewCount: no validation at all — the id goes
straight to the repository update. -/
def IncrViewCount (db : DB) (id : Nat) : SvcResult Unit :=
  match repository.IncrViewCount db.resources id with
  | .error e => ⟨.error (.storage e), db, [.incrViewCount id]⟩
  | .ok rows => ⟨.ok (), { db with resources := rows }, [.incrViewCount id]⟩

/-- resource_ser.go IncrLikeCount: reject id 0 (`id <= 0` on a uint64)
before the repository call, then delegate. -/
def IncrLikeCount (db : DB) (id : Nat) : SvcResult Unit :=
  if id == 0 then
    ⟨.error .invalidResourceId, db, []⟩
  else
    match repository.IncrLikeCount db.resources id with
    | .error e => ⟨.error (.storage e), db, [.incrLikeCount id]⟩
    | .ok rows => ⟨.ok (), { db with resources := rows }, [.incrLikeCount id]⟩

/-- resource_ser.go CreateComment: reject id 0 and blank content; the
comment-row insertion is commented out in the source, so the only
effect is the comment-count increment. -/
def CreateComment (db : DB) (id : Nat) (content : String) : SvcResult Unit :=
  if id == 0 then
    ⟨.error .invalidResourceId, db, []⟩
  else
    let content := trimSpace content
    if content == "" then
      ⟨.error .emptyContent, db, []⟩
    else
      match repository.IncrCommentCount db.resources id with
      | .error e => ⟨.error (.storage e), db, [.incrCommentCount id]⟩
      | .ok rows =>
        ⟨.ok (), { db with resources := rows }, [.incrCommentCount id]⟩

end service

/-- A character needs at least one byte, so a string never has more
characters than bytes. -/
theorem length_le_utf8ByteSize (s : String) : s.length ≤ s.utf8ByteSize := by
  cases s with
  | mk data =>
    rw [String.length_mk, String.utf8ByteSize_mk]
    induction data with
    | nil => simp
    | cons c cs ih =>
      rw [List.length_cons, String.utf8Len_cons]
      have := Char.utf8Size_pos c
      omega

/-- C6: CreateResource works on the trimmed title — an all-blank title
or one longer than 100 characters is rejected by validation with no
repository call and no state change — and a successful call appends
exactly one resource whose three counters are zero, whose author is the
resolved owner's username and whose title is the trimmed input, leaving
users and accounts untouched. -/
theorem create_resource_validates_and_zeroes_counters (db : DB)
    (now userID : Nat) (title text code : String) :
    ((trimSpace title) = "" →
        resIsValidation (service.CreateResource db now userID title text code).res = true
          ∧ (service.CreateResource db now userID title text code).db = db
          ∧ (service.CreateResource db now userID title text code).calls = [])
      ∧ (100 < (trimSpace title).length →
        resIsValidation (service.CreateResource db now userID title text code).res = true
          ∧ (service.CreateResource db now userID title text code).db = db
          ∧ (service.CreateResource db now userID title text code).calls = [])
      ∧ ((service.CreateResource db now userID title text code).res = .ok () →
        ∃ u r, repository.GetUserById db.users userID = .ok u
          ∧ (service.CreateResource db now userID title text code).db.resources
              = db.resources ++ [r]
          ∧ r.likeCount = 0 ∧ r.viewCount = 0 ∧ r.commentCount = 0
          ∧ r.author = u.username ∧ r.title = (trimSpace title)
          ∧ (service.CreateResource db now userID title text code).db.users
              = db.users
          ∧ (service.CreateResource db now userID title text code).db.accounts
              = db.accounts) := by
  refine ⟨?_, ?_, ?_⟩
  · intro h
    by_cases hu : userID == 0
    · simp [service.CreateResource, hu, resIsValidation, SvcErr.isValidation]
    · simp [service.CreateResource, hu, h, resIsValidation, SvcErr.isValidation]
  · intro h
    by_cases hu : userID == 0
    · simp [service.CreateResource, hu, resIsValidation, SvcErr.isValidation]
    · by_cases he : (trimSpace title) == ""
      · simp [service.CreateResource, hu, he, resIsValidation,
          SvcErr.isValidation]
      · have hb : 100 < (trimSpace title).utf8ByteSize :=
          lt_of_lt_of_le h (length_le_utf8ByteSize (trimSpace title))
        simp [service.CreateResource, hu, he, hb, resIsValidation,
          SvcErr.isValidation]
  · intro hok
    by_cases hu : userID == 0
    · simp [service.CreateResource, hu] at hok
    · by_cases he : (trimSpace title) == ""
      · simp [service.CreateResource, hu, he] at hok
      · by_cases hs : 100 < (trimSpace title).utf8ByteSize
        · simp [service.CreateResource, hu, he, hs] at hok
        · cases hfind : repository.GetUserById db.users userID with
          | error e => simp [service.CreateResource, hu, he, hs, hfind] at hok
          | ok user =>
            by_cases hn : (trimSpace user.username) == ""
            · simp [service.CreateResource, hu, he, hs, hfind, hn] at hok
            · refine ⟨user,
                ⟨db.nextResourceId, userID, (trimSpace title), (trimSpace text), code,
                  user.username, now, 0, 0, 0⟩,
                rfl, ?_, rfl, rfl, rfl, rfl, rfl, ?_, ?_⟩ <;>
                simp [service.CreateResource, hu, he, hs, hfind, hn,
                  repository.CreateResource]

/-- Witness for C6: on a store with the single user (1, "uu", "alice"),
a blank title is rejected without touching anything, and creating with
title " T " succeeds, appending one row with zero counters, author
"alice" and title "T". -/
theorem create_resource_validates_and_zeroes_counters_witness :
    (resIsValidation
        (service.CreateResource ⟨[⟨1, "uu", "alice"⟩], [], [], 5⟩ 7 1 " " "x" "y").res
          = true
      ∧ (service.CreateResource ⟨[⟨1, "uu", "alice"⟩], [], [], 5⟩ 7 1 " " "x" "y").db
          = ⟨[⟨1, "uu", "alice"⟩], [], [], 5⟩
      ∧ (service.CreateResource ⟨[⟨1, "uu", "alice"⟩], [], [], 5⟩ 7 1 " " "x" "y").calls
          = [])
    ∧ (∃ u r,
        repository.GetUserById (DB.users ⟨[⟨1, "uu", "alice"⟩], [], [], 5⟩) 1 = .ok u
          ∧ (service.CreateResource ⟨[⟨1, "uu", "alice"⟩], [], [], 5⟩ 7 1 " T " "x" "y").db.resources
              = DB.resources ⟨[⟨1, "uu", "alice"⟩], [], [], 5⟩ ++ [r]
          ∧ r.likeCount = 0 ∧ r.viewCount = 0 ∧ r.commentCount = 0
          ∧ r.author = u.username ∧ r.title = trimSpace " T "
          ∧ (service.CreateResource ⟨[⟨1, "uu", "alice"⟩], [], [], 5⟩ 7 1 " T " "x" "y").db.users
              = DB.users ⟨[⟨1, "uu", "alice"⟩], [], [], 5⟩
          ∧ (service.CreateResource ⟨[⟨1, "uu", "alice"⟩], [], [], 5⟩ 7 1 " T " "x" "y").db.accounts
              = DB.accounts ⟨[⟨1, "uu", "alice"⟩], [], [], 5⟩) :=
  ⟨(create_resource_validates_and_zeroes_counters
      ⟨[⟨1, "uu", "alice"⟩], [], [], 5⟩ 7 1 " " "x" "y").1 (by decide),
   (create_resource_validates_and_zeroes_counters
      ⟨[⟨1, "uu", "alice"⟩], [], [], 5⟩ 7 1 " T " "x" "y").2.2 (by rfl)⟩

/-- C7 counterexample: the view-count service operation called with
id 0 does not return an error and does call the store — it has no
validation, contrary to the claim. -/
theorem incr_view_unvalidated_counterexample :
    (service.IncrViewCount ⟨[], [], [], 1⟩ 0).res = .ok ()
      ∧ (service.IncrViewCount ⟨[], [], [], 1⟩ 0).calls
        = [StoreCall.incrViewCount 0] :=
  ⟨rfl, rfl⟩

/-- C7 amended: the like-count service operation validates id ≥ 1,
returning an error for id 0 with no store call; the view-count service
operation has no validation and delegates every id (0 included)
straight to the store increment; valid ids delegate to the matching
store increment, and neither operation takes or checks any caller
identity. -/
theorem incr_view_like_delegation (db : DB) (id : Nat) :
    service.IncrLikeCount db 0 = ⟨.error .invalidResourceId, db, []⟩
      ∧ (id ≠ 0 →
        service.IncrLikeCount db id =
          ⟨.ok (),
            { db with resources :=
                (repository.updateWhereId db.resources id bumpLike) },
            [.incrLikeCount id]⟩)
      ∧ service.IncrViewCount db id =
          ⟨.ok (),
            { db with resources :=
                (repository.updateWhereId db.resources id bumpView) },
            [.incrViewCount id]⟩ := by
  refine ⟨?_, ?_, ?_⟩
  · simp [service.IncrLikeCount]
  · intro h
    simp [service.IncrLikeCount, h, repository.IncrLikeCount]
  · simp [service.IncrViewCount, repository.IncrViewCount]

/-- Witness for C7 (amended), on the empty store at ids 0 and 2. -/
theorem incr_view_like_delegation_witness :
    service.IncrLikeCount ⟨[], [], [], 1⟩ 0
        = ⟨.error .invalidResourceId, ⟨[], [], [], 1⟩, []⟩
      ∧ service.IncrLikeCount ⟨[], [], [], 1⟩ 2 =
          ⟨.ok (),
            ⟨[], [], repository.updateWhereId [] 2
                bumpLike, 1⟩,
            [.incrLikeCount 2]⟩
      ∧ service.IncrViewCount ⟨[], [], [], 1⟩ 2 =
          ⟨.ok (),
            ⟨[], [], repository.updateWhereId [] 2
                bumpView, 1⟩,
            [.incrViewCount 2]⟩ :=
  ⟨(incr_view_like_delegation ⟨[], [], [], 1⟩ 2).1,
   (incr_view_like_delegation ⟨[], [], [], 1⟩ 2).2.1 (by decide),
   (incr_view_like_delegation ⟨[], [], [], 1⟩ 2).2.2⟩

/-- C8: the paginated list rejects page < 1 and size outside [1, 50]
before any repository call; with a zero filtered count it answers an
empty page with total 0 after only the count query; otherwise it issues
the page query at offset (page-1)*size and returns the projected page
together with the filter-wide total, and the projection carries all
three counters of each row. -/
theorem get_resource_list_paging (db : DB) (page size : Int)
    (keyword : String) :
    (page < 1 →
        service.GetResourceList db page size keyword
          = ⟨.error .invalidPage, db, []⟩)
      ∧ (1 ≤ page → (size < 1 ∨ 50 < size) →
        service.GetResourceList db page size keyword
          = ⟨.error .invalidSize, db, []⟩)
      ∧ (1 ≤ page → 1 ≤ size → size ≤ 50 →
          repository.CountResources db.resources keyword = 0 →
        service.GetResourceList db page size keyword
          = ⟨.ok ([], 0), db, [.countResources keyword]⟩)
      ∧ (1 ≤ page → 1 ≤ size → size ≤ 50 →
          repository.CountResources db.resources keyword ≠ 0 →
        service.GetResourceList db page size keyword
          = ⟨.ok ((repository.GetResourceList db.resources ((page - 1) * size)
                    size keyword).map service.convertModelToDTO,
                  repository.CountResources db.resources keyword),
              db,
              [.countResources keyword,
               .getResourceList ((page - 1) * size) size keyword]⟩)
      ∧ (∀ m : Resource,
          (service.convertModelToDTO m).likeCount = m.likeCount
            ∧ (service.convertModelToDTO m).viewCount = m.viewCount
            ∧ (service.convertModelToDTO m).commentCount = m.commentCount) := by
  refine ⟨?_, ?_, ?_, ?_, ?_⟩
  · intro h
    simp [service.GetResourceList, h]
  · intro h1 h2
    have hnp : ¬ page < 1 := by omega
    simp [service.GetResourceList, hnp, h2]
  · intro h1 h2 h3 hc
    have hnp : ¬ page < 1 := by omega
    have hns : ¬ (size < 1 ∨ 50 < size) := by omega
    simp [service.GetResourceList, hnp, hns, hc]
  · intro h1 h2 h3 hc
    have hnp : ¬ page < 1 := by omega
    have hns : ¬ (size < 1 ∨ 50 < size) := by omega
    simp [service.GetResourceList, hnp, hns, hc]
  · intro m
    exact ⟨rfl, rfl, rfl⟩

/-- Witness for C8 on a two-row store: page 0 and size 0 are rejected,
keyword "zzz" matches nothing and short-circuits, and keyword "" with
page 1, size 10 returns the projected page with total 2. -/
theorem get_resource_list_paging_witness :
    (service.GetResourceList
          ⟨[], [], [⟨1, 1, "Go Tutorial", "", "", "a", 10, 0, 0, 0⟩,
                    ⟨2, 1, "Rust", "", "", "b", 5, 0, 0, 0⟩], 3⟩ 0 10 ""
        = ⟨.error .invalidPage,
            ⟨[], [], [⟨1, 1, "Go Tutorial", "", "", "a", 10, 0, 0, 0⟩,
                      ⟨2, 1, "Rust", "", "", "b", 5, 0, 0, 0⟩], 3⟩, []⟩)
      ∧ (service.GetResourceList
          ⟨[], [], [⟨1, 1, "Go Tutorial", "", "", "a", 10, 0, 0, 0⟩,
                    ⟨2, 1, "Rust", "", "", "b", 5, 0, 0, 0⟩], 3⟩ 1 0 ""
        = ⟨.error .invalidSize,
            ⟨[], [], [⟨1, 1, "Go Tutorial", "", "", "a", 10, 0, 0, 0⟩,
                      ⟨2, 1, "Rust", "", "", "b", 5, 0, 0, 0⟩], 3⟩, []⟩)
      ∧ (service.GetResourceList
          ⟨[], [], [⟨1, 1, "Go Tutorial", "", "", "a", 10, 0, 0, 0⟩,
                    ⟨2, 1, "Rust", "", "", "b", 5, 0, 0, 0⟩], 3⟩ 1 10 "zzz"
        = ⟨.ok ([], 0),
            ⟨[], [], [⟨1, 1, "Go Tutorial", "", "", "a", 10, 0, 0, 0⟩,
                      ⟨2, 1, "Rust", "", "", "b", 5, 0, 0, 0⟩], 3⟩,
            [.countResources "zzz"]⟩)
      ∧ (service.GetResourceList
          ⟨[], [], [⟨1, 1, "Go Tutorial", "", "", "a", 10, 0, 0, 0⟩,
                    ⟨2, 1, "Rust", "", "", "b", 5, 0, 0, 0⟩], 3⟩ 1 10 ""
        = ⟨.ok ((repository.GetResourceList
                  (DB.resources ⟨[], [], [⟨1, 1, "Go Tutorial", "", "", "a", 10, 0, 0, 0⟩,
                      ⟨2, 1, "Rust", "", "", "b", 5, 0, 0, 0⟩], 3⟩)
                  ((1 - 1) * 10) 10 "").map service.convertModelToDTO,
                repository.CountResources
                  (DB.resources ⟨[], [], [⟨1, 1, "Go Tutorial", "", "", "a", 10, 0, 0, 0⟩,
                      ⟨2, 1, "Rust", "", "", "b", 5, 0, 0, 0⟩], 3⟩) ""),
            ⟨[], [], [⟨1, 1, "Go Tutorial", "", "", "a", 10, 0, 0, 0⟩,
                      ⟨2, 1, "Rust", "", "", "b", 5, 0, 0, 0⟩], 3⟩,
            [.countResources "",
             .getResourceList ((1 - 1) * 10) 10 ""]⟩) :=
  ⟨(get_resource_list_paging
      ⟨[], [], [⟨1, 1, "Go Tutorial", "", "", "a", 10, 0, 0, 0⟩,
                ⟨2, 1, "Rust", "", "", "b", 5, 0, 0, 0⟩], 3⟩ 0 10 "").1
     (by decide),
   (get_resource_list_paging
      ⟨[], [], [⟨1, 1, "Go Tutorial", "", "", "a", 10, 0, 0, 0⟩,
                ⟨2, 1, "Rust", "", "", "b", 5, 0, 0, 0⟩], 3⟩ 1 0 "").2.1
     (by decide) (by decide),
   (get_resource_list_paging
      ⟨[], [], [⟨1, 1, "Go Tutorial", "", "", "a", 10, 0, 0, 0⟩,
                ⟨2, 1, "Rust", "", "", "b", 5, 0, 0, 0⟩], 3⟩ 1 10 "zzz").2.2.1
     (by decide) (by decide) (by decide) (by decide),
   (get_resource_list_paging
      ⟨[], [], [⟨1, 1, "Go Tutorial", "", "", "a", 10, 0, 0, 0⟩,
                ⟨2, 1, "Rust", "", "", "b", 5, 0, 0, 0⟩], 3⟩ 1 10 "").2.2.2.1
     (by decide) (by decide) (by decide) (by decide)⟩

/-- C9: asking for a positive id that has no row answers a nil resource
with no error, while id 0 answers the distinct malformed-id validation
error. -/
theorem get_resource_by_id_absent (db : DB) (id : Nat)
    (h1 : 1 ≤ id) (h2 : repository.GetResourceByID db.resources id = none) :
    (service.GetResourceByID db id).res = .ok none
      ∧ (service.GetResourceByID db 0).res = .error .invalidResourceId := by
  have h0 : ¬ id = 0 := by omega
  constructor
  · simp [service.GetResourceByID, h0, h2]
  · simp [service.GetResourceByID]

/-- Witness for C9: id 1 on the empty store. -/
theorem get_resource_by_id_absent_witness :
    (service.GetResourceByID ⟨[], [], [], 1⟩ 1).res = .ok none
      ∧ (service.GetResourceByID ⟨[], [], [], 1⟩ 0).res
        = .error .invalidResourceId :=
  get_resource_by_id_absent ⟨[], [], [], 1⟩ 1 (by decide) rfl

/-- C10: for a valid id and non-blank contents, CreateComment's outcome
does not depend on the content at all, and its only state change is the
comment-count increment on the rows with that id — no comment text is
persisted anywhere. -/
theorem create_comment_ignores_content (db : DB) (id : Nat)
    (c1 c2 : String) (hid : 1 ≤ id)
    (h1 : (trimSpace c1) ≠ "") (h2 : (trimSpace c2) ≠ "") :
    service.CreateComment db id c1 = service.CreateComment db id c2
      ∧ service.CreateComment db id c1 =
        ⟨.ok (),
          { db with resources :=
              (repository.updateWhereId db.resources id bumpComment) },
          [.incrCommentCount id]⟩ := by
  have h0 : ¬ id = 0 := by omega
  constructor <;>
    simp [service.CreateComment, h0, h1, h2, repository.IncrCommentCount]

/-- Witness for C10: contents "hello" and "world" at id 1 on a one-row
store give the same result, a pure comment-count bump. -/
theorem create_comment_ignores_content_witness :
    service.CreateComment ⟨[], [], [⟨1, 1, "t", "", "", "a", 0, 0, 0, 4⟩], 2⟩ 1 "hello"
        = service.CreateComment ⟨[], [], [⟨1, 1, "t", "", "", "a", 0, 0, 0, 4⟩], 2⟩ 1 "world"
      ∧ service.CreateComment ⟨[], [], [⟨1, 1, "t", "", "", "a", 0, 0, 0, 4⟩], 2⟩ 1 "hello" =
        ⟨.ok (),
          ⟨[], [], repository.updateWhereId
              [⟨1, 1, "t", "", "", "a", 0, 0, 0, 4⟩] 1
              bumpComment, 2⟩,
          [.incrCommentCount 1]⟩ :=
  create_comment_ignores_content
    ⟨[], [], [⟨1, 1, "t", "", "", "a", 0, 0, 0, 4⟩], 2⟩ 1 "hello" "world"
    (by decide) (by decide) (by decide)

/-- C3: with a non-positive amount, both service operations stop at
their own validation (the empty-identity or the non-positive-amount
check, whichever fires), with no repository call issued and the state
untouched. -/
theorem nonpositive_amount_rejected_before_storage (db : DB)
    (uuid : String) (amount : Int) (h : amount ≤ 0) :
    resIsValidation (service.Recharge db ⟨uuid, amount⟩).res = true
      ∧ (service.Recharge db ⟨uuid, amount⟩).db = db
      ∧ (service.Recharge db ⟨uuid, amount⟩).calls = []
      ∧ resIsValidation (service.Deduct db ⟨uuid, amount⟩).res = true
      ∧ (service.Deduct db ⟨uuid, amount⟩).db = db
      ∧ (service.Deduct db ⟨uuid, amount⟩).calls = [] := by
  by_cases hu : uuid == ""
  · simp [service.Recharge, service.Deduct, hu, resIsValidation,
      SvcErr.isValidation]
  · simp [service.Recharge, service.Deduct, hu, h, resIsValidation,
      SvcErr.isValidation]

/-- Witness for C3: recharging or deducting a zero amount for "u1" on
an empty state is rejected by validation with no repository call. -/
theorem nonpositive_amount_rejected_before_storage_witness :
    resIsValidation (service.Recharge ⟨[], [], [], 1⟩ ⟨"u1", 0⟩).res = true
      ∧ (service.Recharge ⟨[], [], [], 1⟩ ⟨"u1", 0⟩).db = ⟨[], [], [], 1⟩
      ∧ (service.Recharge ⟨[], [], [], 1⟩ ⟨"u1", 0⟩).calls = []
      ∧ resIsValidation (service.Deduct ⟨[], [], [], 1⟩ ⟨"u1", 0⟩).res = true
      ∧ (service.Deduct ⟨[], [], [], 1⟩ ⟨"u1", 0⟩).db = ⟨[], [], [], 1⟩
      ∧ (service.Deduct ⟨[], [], [], 1⟩ ⟨"u1", 0⟩).calls = [] :=
  nonpositive_amount_rejected_before_storage ⟨[], [], [], 1⟩ "u1" 0 (by decide)

end CMS
